import Mathlib

/-!
Verification development for the slskd-spotify search aggregator
(`app.py`, `isrc_tracker.py`, `musicbrainz_client.py`).

The Python source is shallowly embedded: every function below is a direct
translation of the corresponding Python function; block boundaries and
numeric constants mirror the source.  Python floats are modelled by `Rat`
(all constants in the source are exactly representable), Python `None` by
`Option`, Python string truthiness (`if s:`) by explicit emptiness tests,
and Python lists / insertion-ordered dicts by `List` / association lists.
-/

namespace Slskd

/-! ## String helpers (Python `str.lower`, `str.replace`, `in`, `pathlib.Path.stem`)

ASCII-only model of `str.lower` (all data relevant to the claims is ASCII). -/

/-- Python `s.lower()` (ASCII model). -/
def lowerStr (s : String) : String := String.mk (s.toList.map Char.toLower)

/-- Python `s.replace(c, ' ')` for a single-character pattern. -/
def replaceChar (c : Char) (s : String) : String :=
  String.mk (s.toList.map (fun x => if x = c then ' ' else x))

/-- Tests whether `xs` begins with `p` (helper for the substring test). -/
def begOf : List Char → List Char → Bool
  | [], _ => true
  | _ :: _, [] => false
  | a :: as, b :: bs => a == b && begOf as bs

/-- Tests whether `n` occurs contiguously inside `h` — Python `n in h` for strings
(the empty string occurs in every string, as in Python). -/
def subOf (n : List Char) : List Char → Bool
  | [] => n.isEmpty
  | h :: t => begOf n (h :: t) || subOf n t

/-- Python `needle in hay` on strings. -/
def strIn (needle hay : String) : Bool := subOf needle.toList hay.toList

/-- The final path component: drop trailing `/` separators, then take the part
after the last `/` (POSIX `pathlib.PurePath.name`). -/
def pathName (s : String) : String :=
  let cs := (s.toList.reverse.dropWhile (· == '/')).takeWhile (· != '/')
  String.mk cs.reverse

/-- Python `pathlib.Path(s).stem`: the final component without its suffix.
The suffix is everything from the last dot, provided that dot is neither the
first nor the last character of the component. -/
def pathStem (s : String) : String :=
  let name := (pathName s).toList
  match (List.range name.length).filter (fun i => name.get? i == some '.') |>.getLast? with
  | some i => if 0 < i ∧ i < name.length - 1 then String.mk (name.take i) else String.mk name
  | none => String.mk name

/-! ## `difflib.SequenceMatcher` (stdlib), as used by `calculate_quality_score`

`SequenceMatcher(None, a, b).ratio()` with no junk predicate.  `autojunk`
only takes effect when `len(b) >= 200`; all comparisons performed by the
program are far shorter, so the junk machinery is inert and omitted. -/

/-- Indices of the occurrences of `c` in `b`, ascending (difflib's `b2j[c]`). -/
def posIdx (b : List Char) (c : Char) : List Nat :=
  (b.enum.filter (fun p => p.2 == c)).map (·.1)

/-- Association-list lookup with default 0 (difflib's `j2len.get(j, 0)`). -/
def j2lenGet (m : List (Nat × Nat)) (j : Nat) : Nat :=
  match m.find? (fun p => p.1 == j) with
  | some p => p.2
  | none => 0

/-- One row (fixed `i`) of difflib's `find_longest_match` dynamic program.
`js` is `b2j[a[i]]` in ascending order; the Python `continue`/`break` on the
ascending list is equivalent to keeping `blo ≤ j < bhi`.  Returns the new
`j2len` row and the updated best `(i', j', size)`. -/
def flmRow (blo bhi i : Nat) (old : List (Nat × Nat)) (js : List Nat)
    (best : Nat × Nat × Nat) : List (Nat × Nat) × (Nat × Nat × Nat) :=
  js.foldl
    (fun acc j =>
      if blo ≤ j ∧ j < bhi then
        let k := (if j = 0 then 0 else j2lenGet old (j - 1)) + 1
        let best' := if k > acc.2.2.2 then (i + 1 - k, j + 1 - k, k) else acc.2
        ((j, k) :: acc.1, best')
      else acc)
    ([], best)

/-- difflib's `find_longest_match(alo, ahi, blo, bhi)` (no junk): the longest
block `a[i:i+k] == b[j:j+k]` with `alo ≤ i ≤ i+k ≤ ahi`, `blo ≤ j ≤ j+k ≤ bhi`,
earliest `i` then `j` among maximal blocks. -/
def findLongestMatch (a b : List Char) (alo ahi blo bhi : Nat) : Nat × Nat × Nat :=
  let r := (List.range' alo (ahi - alo)).foldl
    (fun (acc : List (Nat × Nat) × (Nat × Nat × Nat)) i =>
      match a.get? i with
      | some c => flmRow blo bhi i acc.1 (posIdx b c) acc.2
      | none => ([], acc.2))
    ([], (alo, blo, 0))
  r.2

/-- Total size of all matching blocks (the `sum(size for ...)` over
difflib's `get_matching_blocks`), computed by the same divide-and-conquer
recursion.  `fuel` bounds the recursion depth; `ahi - alo + bhi - blo` always
suffices because every recursive call strictly shrinks the two intervals. -/
def matchTotal (a b : List Char) : Nat → Nat → Nat → Nat → Nat → Nat
  | 0, _, _, _, _ => 0
  | fuel + 1, alo, ahi, blo, bhi =>
    let (i, j, k) := findLongestMatch a b alo ahi blo bhi
    if k = 0 then 0
    else k + matchTotal a b fuel alo i blo j + matchTotal a b fuel (i + k) ahi (j + k) bhi

/-- Model of `difflib.SequenceMatcher(None, a, b).ratio()`: `2*M / (len(a)+len(b))`,
or `1.0` when both strings are empty. -/
def seqRatio (a b : String) : Rat :=
  let la := a.toList.length
  let lb := b.toList.length
  if la + lb = 0 then 1
  else (2 * (matchTotal a.toList b.toList (la + lb) 0 la 0 lb) : Rat) / (la + lb)

/-! ## Data model (`PeerFileOffer` / MusicBrainz metadata) -/

/-- One peer file offer, as the result dicts are built in `search_single_item`
/ `background_search_task.process_item` (app.py).  `duration_seconds` comes
from slskd's `length` field and may be missing; `speed_kbs` is
`uploadSpeed / 1024`, a float.  `requested_title` is carried inside each
result dict and read back by `rank_and_filter_results`. -/
structure FileInfo where
  username : String
  filename : String
  size : Nat
  bitrate : Nat
  extension : String
  queue_length : Nat
  speed_kbs : Rat
  has_free_slot : Bool
  is_locked : Bool
  duration_seconds : Option Rat
  requested_title : String
  deriving DecidableEq

/-- MusicBrainz canonical metadata, the fields `calculate_quality_score`
reads (`album`, `duration_ms`) plus the `isrc` used by the duplicate checks. -/
structure MBMetadata where
  album : Option String
  duration_ms : Option Rat
  isrc : Option String
  deriving DecidableEq

/-- Python truthiness of an optional string (`if m.get('album'):`). -/
def truthyStr : Option String → Bool
  | none => false
  | some s => !(s == "")

/-- Python truthiness of an optional number (`if m.get('duration_ms'):`,
`if file_duration:`). -/
def truthyNum : Option Rat → Bool
  | none => false
  | some q => !(q == 0)

/-! ## `calculate_quality_score` (app.py lines 192-313)

The Python function accumulates a float `score` through six sequential
blocks; each block is one definition below and the function is their sum,
in source order.  Every contribution the source ever adds is an integer
constant, so the accumulated float is always integral and the score is
modelled as `Int`; the genuinely fractional quantities (the
`SequenceMatcher` ratio, durations, `speed_kbs`) occur only inside
comparisons against constants and stay `Rat`. -/

/-- The blacklist of version-indicator words (app.py line 212). -/
def blacklist : List String :=
  ["instrumental", "karaoke", "cover", "live", "remix", "acapella"]

/-- Cleaned filename for name matching:
`Path(filename).stem.replace('_',' ').replace('-',' ').lower()`. -/
def cleanFilename (filename : String) : String :=
  lowerStr (replaceChar '-' (replaceChar '_' (pathStem filename)))

/-- Block 1, "Fuzzy Name Match" (executed only when `requested_title` is
truthy): blacklist penalties, literal containment bonus, and the
`SequenceMatcher` ratio tiers. -/
def nameTerm (filename requested_title : String) : Int :=
  let clean_filename := cleanFilename filename
  let clean_title := lowerStr requested_title
  let bl : Int := (blacklist.map (fun w =>
    if strIn w clean_filename && !(strIn w clean_title) then (-500 : Int) else 0)).sum
  let containment : Int := if strIn clean_title clean_filename then 50 else 0
  let r := seqRatio clean_title clean_filename
  let tier : Int :=
    if r > 85 / 100 then 100
    else if r > 7 / 10 then 50
    else if r < 2 / 5 then -100
    else 0
  bl + containment + tier

/-- The "NEW: Album Verification" block (app.py lines 232-241): `+30` when the
lowercased MusicBrainz album is a literal substring of the lowercased
filename. -/
def albumContainTerm (filename : String) (mb : Option MBMetadata) : Int :=
  match mb with
  | none => 0
  | some m =>
    if truthyStr m.album then
      let official_album := lowerStr (m.album.getD "")
      if strIn official_album (lowerStr filename) then 30 else 0
    else 0

/-- Block 2, "Duration Verification" (app.py lines 244-265): tiers on the
absolute difference between the MusicBrainz duration (ms / 1000) and the
offer's reported duration. -/
def durationTerm (duration_seconds : Option Rat) (mb : Option MBMetadata) : Int :=
  match mb with
  | none => 0
  | some m =>
    if truthyNum m.duration_ms then
      let mb_duration_seconds := m.duration_ms.getD 0 / 1000
      if truthyNum duration_seconds then
        let file_duration := duration_seconds.getD 0
        let duration_diff := |mb_duration_seconds - file_duration|
        if duration_diff ≤ 2 then 100
        else if duration_diff ≤ 5 then 50
        else if duration_diff ≤ 10 then 20
        else -200
      else 0
    else 0

/-- Block 3, fuzzy "Album Verification" (app.py lines 268-282):
`SequenceMatcher` ratio of the lowercased album against the lowercased
filename, tiered at 0.7 / 0.5. -/
def albumFuzzyTerm (filename : String) (mb : Option MBMetadata) : Int :=
  match mb with
  | none => 0
  | some m =>
    if truthyStr m.album then
      let mb_album := lowerStr (m.album.getD "")
      let r := seqRatio mb_album (lowerStr filename)
      if r > 7 / 10 then 75
      else if r > 5 / 10 then 30
      else 0
    else 0

/-- Lossless extensions (app.py line 288). -/
def losslessExts : List String := ["flac", "wav", "alac", "ape"]

/-- Block 4, "Bitrate Tiering" (app.py lines 285-295). -/
def bitrateTerm (extension : String) (bitrate : Nat) : Int :=
  if losslessExts.contains (lowerStr extension) then 50
  else if bitrate ≥ 320 then 40
  else if bitrate ≥ 192 then 30
  else -100

/-- Block 5, "Queue Penalty" (app.py lines 298-304): note queue lengths
4 to 9 contribute nothing. -/
def queueTerm (queue_length : Nat) : Int :=
  if queue_length = 0 then 50
  else if queue_length ≤ 3 then -10
  else if queue_length ≥ 10 then -100
  else 0

/-- Block 6, "Speed scoring" (app.py lines 307-311). -/
def speedTerm (speed_kbs : Rat) : Int :=
  if speed_kbs ≥ 1000 then 20
  else if speed_kbs ≥ 100 then 10
  else 0

/-- Model of `calculate_quality_score(file_info, requested_title, musicbrainz_metadata)`
(app.py lines 192-313): the sum of the six blocks, the name block guarded by
Python truthiness of `requested_title`. -/
def calculate_quality_score (f : FileInfo) (requested_title : String)
    (mb : Option MBMetadata) : Int :=
  (if requested_title ≠ "" then nameTerm f.filename requested_title else 0)
  + albumContainTerm f.filename mb
  + durationTerm f.duration_seconds mb
  + albumFuzzyTerm f.filename mb
  + bitrateTerm f.extension f.bitrate
  + queueTerm f.queue_length
  + speedTerm f.speed_kbs

/-! ## `passes_quality_filters` (app.py lines 316-371) -/

/-- The video-extension blacklist (app.py line 337). -/
def videoExtensions : List String :=
  ["mkv", "mp4", "avi", "mov", "wmv", "flv", "webm", "mpg", "mpeg", "m4v"]

/-- Model of `passes_quality_filters(file_info)` (app.py lines 316-371).  The active
rejections are: video extension, size above `MAX_FILE_SIZE_MB`, locked file,
and queue length above the hard-coded ceiling `1000` (the line reads
`if queue_length > 1000: # Was CONFIG['MAX_QUEUE_LENGTH']`); the speed and
bitrate checks in the source are commented out.  `maxFileSizeMB` is
`CONFIG['MAX_FILE_SIZE_MB']` (default 30). -/
def passes_quality_filters (maxFileSizeMB : Nat) (f : FileInfo) : Bool :=
  let extension := lowerStr f.extension
  if videoExtensions.contains extension then false
  else if f.size > maxFileSizeMB * 1024 * 1024 then false
  else if f.is_locked then false
  else if f.queue_length > 1000 then false
  else true

/-! ## `rank_and_filter_results` (app.py lines 374-402) and the final
aggregation of `background_search_task.process_item` (app.py lines 1098-1109) -/

/-- A result dict after `result['quality_score'] = ...` has been set. -/
structure Scored where
  file : FileInfo
  quality_score : Int
  deriving DecidableEq

/-- One step of Python's stable sort by `quality_score` descending
(`list.sort(key=..., reverse=True)`): a later element is placed after every
earlier element whose score is greater than or equal to its own, so equal
scores keep their original relative order, exactly as CPython's stable sort
does. -/
def insertScored (x : Scored) : List Scored → List Scored
  | [] => [x]
  | y :: ys =>
    if y.quality_score ≥ x.quality_score then y :: insertScored x ys
    else x :: y :: ys

/-- Python `results.sort(key=lambda x: x['quality_score'], reverse=True)`:
stable descending sort. -/
def sortByScoreDesc (l : List Scored) : List Scored :=
  l.foldl (fun acc x => insertScored x acc) []

/-- Model of `rank_and_filter_results(results, musicbrainz_metadata)` (app.py lines
374-402): keep the offers passing `passes_quality_filters`, attach
`calculate_quality_score(result, result.get('requested_title', ''), mb)`,
sort by score descending, truncate to `CONFIG['TOP_RESULTS_COUNT']`
(`topCount`). -/
def rank_and_filter_results (maxFileSizeMB topCount : Nat)
    (results : List FileInfo) (mb : Option MBMetadata) : List Scored :=
  let filtered := (results.filter (passes_quality_filters maxFileSizeMB)).map
    (fun r => Scored.mk r (calculate_quality_score r r.requested_title mb))
  (sortByScoreDesc filtered).take topCount

/-- The dedup key of `process_item` (app.py line 1102):
`f"{r['username']}_{r['filename']}"`. -/
def resultKey (r : Scored) : String := r.file.username ++ "_" ++ r.file.filename

/-- The `seen`-set dedup loop of `process_item` (app.py lines 1099-1105):
keep the first occurrence of each `(username, filename)` key. -/
def dedupAux (seen : List String) : List Scored → List Scored
  | [] => []
  | r :: rest =>
    if seen.contains (resultKey r) then dedupAux seen rest
    else r :: dedupAux (resultKey r :: seen) rest

/-- Deduplicate collected results by `username_filename`, first wins. -/
def dedupResults (l : List Scored) : List Scored := dedupAux [] l

/-- The end of `process_item` (app.py lines 1098-1109): deduplicate the
results collected across all query variants, re-sort by score descending,
truncate to `CONFIG['TOP_RESULTS_COUNT']`. -/
def aggregateResults (topCount : Nat) (collected : List Scored) : List Scored :=
  (sortByScoreDesc (dedupResults collected)).take topCount

/-! ## `QueueManager.add_items` (app.py lines 132-145) -/

/-- A queued search item (`{'artist': ..., 'title': ..., 'album': ...}`). -/
structure SearchItem where
  artist : String
  title : String
  album : String
  deriving DecidableEq

/-- The queue identity key, `f"{item['artist']}-{item['title']}"`
(app.py lines 136 and 139). -/
def itemKey (i : SearchItem) : String := i.artist ++ "-" ++ i.title

/-- Model of `QueueManager.add_items(items)` (app.py lines 132-145): `current_keys`
is the key set of the queue *before* the call; every batch item whose key is
not in that set is appended (the set is not extended as the batch is
scanned); the count of appended items is returned. -/
def add_items (queue items : List SearchItem) : List SearchItem × Nat :=
  let current_keys := queue.map itemKey
  let new_items := items.filter (fun i => !(current_keys.contains (itemKey i)))
  (queue ++ new_items, new_items.length)

/-! ## `SearchManager` (app.py lines 405-582)

The results store is a JSON object with an insertion-ordered `albums` dict
and a legacy `tracks` dict; both are modelled as association lists. -/

/-- One stored track entry, the dict built in `add_track_results`
(app.py lines 533-546).  `musicbrainz` is present only when metadata was
supplied (and, on update, `dict.update` keeps a previously stored value
when the new dict carries none). -/
structure TrackData where
  artist : String
  title : String
  album : String
  searched_at : String
  result_count : Nat
  reviewed : Bool
  search_id : String
  results : List Scored
  key : String
  musicbrainz : Option MBMetadata
  deriving DecidableEq

/-- One album group (`{'name': ..., 'artist': ..., 'tracks': [...]}`). -/
structure AlbumData where
  name : String
  artist : String
  tracks : List TrackData
  deriving DecidableEq

/-- The `search_results.json` store: the album-grouped dict and the legacy
flat `tracks` dict, both insertion ordered. -/
structure ResultsStore where
  albums : List (String × AlbumData)
  tracks : List (String × TrackData)
  deriving DecidableEq

/-- The empty store (`_create_empty_results`, app.py lines 423-429). -/
def emptyStore : ResultsStore := ⟨[], []⟩

/-- Association-list update preserving insertion order (Python dict
assignment to an existing or fresh key). -/
def assocPut (k : String) (v : AlbumData) : List (String × AlbumData) → List (String × AlbumData)
  | [] => [(k, v)]
  | (k', v') :: rest => if k' == k then (k, v) :: rest else (k', v') :: assocPut k v rest

/-- Association-list lookup (Python `dict.get`). -/
def assocFind {α : Type} (k : String) : List (String × α) → Option α
  | [] => none
  | (k', v) :: rest => if k' == k then some v else assocFind k rest

/-- Replace the first track with the given title, else append
(the `existing_track` search and `update`/`append` of `add_track_results`,
app.py lines 527-553).  On update, `existing_track.update(track_data)`
overwrites every field present in `track_data`; `musicbrainz` is in
`track_data` only when metadata was supplied, so an absent new value keeps
the old one. -/
def putTrack (title : String) (td : TrackData) : List TrackData → List TrackData
  | [] => [td]
  | t :: ts =>
    if t.title == title then
      { td with musicbrainz := match td.musicbrainz with
          | some m => some m
          | none => t.musicbrainz } :: ts
    else t :: putTrack title td ts

/-- Model of `SearchManager.add_track_results(track_key, artist, title, album,
results, search_id, musicbrainz_metadata)` (app.py lines 507-555): group by
`f"{artist} - {album_name}"` inside the `albums` dict (album name defaults
to `"Unknown Album"`), then update-or-append the track entry.  `searchedAt`
stands for `datetime.now().isoformat()`. -/
def add_track_results (store : ResultsStore) (track_key artist title album : String)
    (results : List Scored) (search_id : String) (mb : Option MBMetadata)
    (searchedAt : String) : ResultsStore :=
  let album_name := if album == "" then "Unknown Album" else album
  let album_key := artist ++ " - " ++ album_name
  let album_data := (assocFind album_key store.albums).getD ⟨album_name, artist, []⟩
  let track_data : TrackData :=
    { artist := artist, title := title, album := album_name,
      searched_at := searchedAt, result_count := results.length,
      reviewed := false, search_id := search_id, results := results,
      key := track_key, musicbrainz := mb }
  let album_data' := { album_data with tracks := putTrack title track_data album_data.tracks }
  { store with albums := assocPut album_key album_data' store.albums }

/-- Model of `SearchManager.delete_track(track_key)` (app.py lines 461-468): looks the
key up in the **legacy** `tracks` dict only; deletes and returns `True` when
present there, otherwise returns `False` leaving the store unchanged.  It
never touches the `albums` dict that `add_track_results` writes into. -/
def delete_track (store : ResultsStore) (track_key : String) : ResultsStore × Bool :=
  match assocFind track_key store.tracks with
  | some _ => ({ store with tracks := store.tracks.filter (fun p => !(p.1 == track_key)) }, true)
  | none => (store, false)

/-- Model of `SearchManager.get_track_by_key(key)` (app.py lines 572-582): scan every
album's tracks in insertion order for `track['key'] == key`, falling back to
the legacy `tracks` dict. -/
def get_track_by_key (store : ResultsStore) (key : String) : Option TrackData :=
  match ((store.albums.map (fun p => p.2.tracks)).flatten).find? (fun t => t.key == key) with
  | some t => some t
  | none => assocFind key store.tracks

/-! ## `ISRCTracker` (isrc_tracker.py)

The tracker's state is the `downloads` list of `downloads.json`; the
`last_updated` stamp plays no role in any operation's result and is
omitted. -/

/-- One entry of the downloads ledger, the dict built in `record_download`
(isrc_tracker.py lines 149-160).  `downloaded_at` stands for
`datetime.now().isoformat()` and is passed in explicitly. -/
structure DownloadRecord where
  isrc : Option String
  artist : String
  title : String
  album : Option String
  username : Option String
  filename : Option String
  size : Option Nat
  bitrate : Option Nat
  musicbrainz_id : Option String
  downloaded_at : String
  deriving DecidableEq

/-- The ledger state: the `downloads` list, in append order. -/
abbrev Ledger : Type := List DownloadRecord

/-- Model of `ISRCTracker.is_duplicate(isrc)` (isrc_tracker.py lines 79-100):
`if not isrc: return False` (so `None` **and** the empty string are never
duplicates), else scan the ledger for a record whose `isrc` equals it. -/
def is_duplicate (ledger : Ledger) (isrc : Option String) : Bool :=
  match isrc with
  | none => false
  | some s =>
    if s == "" then false
    else ledger.any (fun d => d.isrc == some s)

/-- Model of `ISRCTracker.record_download(isrc, artist, title, ...)`
(isrc_tracker.py lines 122-165): append the record to the ledger,
unconditionally — no duplicate check is performed here. -/
def record_download (ledger : Ledger) (isrc : Option String) (artist title : String)
    (album username filename : Option String) (size bitrate : Option Nat)
    (musicbrainz_id : Option String) (downloaded_at : String) : Ledger :=
  ledger ++ [⟨isrc, artist, title, album, username, filename, size, bitrate,
    musicbrainz_id, downloaded_at⟩]

/-- The arguments of one `record_download` call. -/
structure RecordCall where
  isrc : Option String
  artist : String
  title : String
  album : Option String
  username : Option String
  filename : Option String
  size : Option Nat
  bitrate : Option Nat
  musicbrainz_id : Option String
  downloaded_at : String
  deriving DecidableEq

/-- Apply one `record_download` call. -/
def applyCall (ledger : Ledger) (c : RecordCall) : Ledger :=
  record_download ledger c.isrc c.artist c.title c.album c.username c.filename
    c.size c.bitrate c.musicbrainz_id c.downloaded_at

/-- Apply a sequence of `record_download` calls, oldest first. -/
def applyCalls (ledger : Ledger) : List RecordCall → Ledger
  | [] => ledger
  | c :: rest => applyCalls (applyCall ledger c) rest

/-- No two ledger records share the same non-null (`isSome`) `isrc` — the
invariant exactly as the spec states it (which counts the empty string as a
non-null id). -/
def NoDupNonNullIsrc (ledger : Ledger) : Prop :=
  ledger.Pairwise (fun a b => ¬(a.isrc.isSome ∧ a.isrc = b.isrc))

/-- No two ledger records share the same non-absent `isrc`, where absent
means `None` or the empty string — the ids `is_duplicate` can actually
detect. -/
def NoDupPresentIsrc (ledger : Ledger) : Prop :=
  ledger.Pairwise (fun a b => ∀ s : String, s ≠ "" → a.isrc = some s → b.isrc ≠ some s)

/-- A call sequence is guarded when every `record_download` is performed only
after `is_duplicate` on its id has returned `False` against the ledger state
at that moment — the protocol the download routes of app.py follow
(`if isrc and isrc_tracker.is_duplicate(isrc): ... else record_download`). -/
def GuardedFrom (ledger : Ledger) : List RecordCall → Prop
  | [] => True
  | c :: rest => is_duplicate ledger c.isrc = false ∧ GuardedFrom (applyCall ledger c) rest

/-! ## `SlskdClient._request_with_retry` (app.py lines 609-640)

One attempt is one `self.session.request(...)` call; its observable outcome
is: a success response, a 429 rate-limit response, or a raised
`RequestException` (any transport failure or non-429 error status — both
reach the `except` block, which re-raises immediately at every attempt
index).  The loop is `for i in range(max_retries + 1)` with
`max_retries = 3` and `backoff = 1`; on a 429 before the last index it
sleeps `backoff * (2 ** i)` seconds and retries. -/

/-- Observable outcome of one HTTP attempt. -/
inductive Outcome
  | ok
  | rate
  | err
  deriving DecidableEq

/-- How a `_request_with_retry` call ends: returning the response, or
propagating an exception. -/
inductive ReqResult
  | success
  | raised
  deriving DecidableEq

/-- The trace of one `_request_with_retry` call: how many
`session.request` attempts were made, the `time.sleep` waits performed in
order, and how the call ended. -/
structure RetryTrace where
  attempts : Nat
  waits : List Nat
  result : ReqResult
  deriving DecidableEq

/-- The retry loop body, iterating `i` from `0` while `k` iterations remain
(`k` starts at `max_retries + 1`).  On `ok` the response is returned; on a
`RequestException` (`err`) the `except` block re-raises at once; on a 429
(`rate`) the last index raises via `raise_for_status`, earlier indices sleep
`backoff * 2^i` and continue. -/
def retryIter (att : Nat → Outcome) (max_retries backoff : Nat) :
    Nat → Nat → List Nat → RetryTrace
  | _, 0, ws => ⟨0, ws, .raised⟩
  | i, k + 1, ws =>
    match att i with
    | .ok => ⟨i + 1, ws, .success⟩
    | .err => ⟨i + 1, ws, .raised⟩
    | .rate =>
      if i = max_retries then ⟨i + 1, ws, .raised⟩
      else retryIter att max_retries backoff (i + 1) k (ws ++ [backoff * 2 ^ i])

/-- Model of `_request_with_retry` (app.py lines 609-640) with its hard-coded
`max_retries = 3`, `backoff = 1`: at most `3 + 1 = 4` attempts. -/
def request_with_retry (att : Nat → Outcome) : RetryTrace :=
  retryIter att 3 1 0 4 []

/-! ## `background_search_task` progress accounting (app.py lines 925-1162)
and `cancel_search` (app.py lines 1414-1419)

After the queue is drained, `search_state['total']` is set to the number of
drained items plus the carried-over `progress` (line 1152).  Each worker's
`process_item` first checks `search_state['active']` and returns without
touching `progress` when a cancellation (`cancel_search` sets
`active = False`) has been observed; otherwise the item runs to its end and
executes `search_state['progress'] += 1` exactly once (line 1139).  When all
futures are done the task sets `active = False` and `completed = True`
(lines 1159-1160) regardless of how many items were skipped.

An execution is abstracted by the initial `progress` value `p0` and one
boolean per drained item: whether that item observed `active = True` and ran
to completion (`true`), or observed the cancellation and returned early
(`false`).  This covers every interleaving of the worker pool with
`cancel_search`. -/

/-- The progress snapshot after the batch finishes. -/
structure BatchState where
  active : Bool
  total : Nat
  progress : Nat
  completed : Bool
  deriving DecidableEq

/-- The successive values of `search_state['progress']`, starting at `p0`,
one step per drained item (`+= 1` when the item ran, unchanged when it was
skipped after cancellation). -/
def progressTrace (p0 : Nat) : List Bool → List Nat
  | [] => [p0]
  | f :: rest => p0 :: progressTrace (if f then p0 + 1 else p0) rest

/-- The final state written by `background_search_task`: `total` fixed at
drain time (line 1152), `progress` incremented once per completed item,
`active := False` and `completed := True` at the end (lines 1159-1160). -/
def runBatch (p0 : Nat) (flags : List Bool) : BatchState :=
  { active := false,
    total := p0 + flags.length,
    progress := p0 + flags.count true,
    completed := true }

/-! ## Concrete inputs used by counterexamples and witnesses -/

/-- A small flac offer with `queue_length = 50`: not a video, 5 MB < 30 MB,
not locked. -/
def offerQ50 : FileInfo :=
  ⟨"user1", "Artist - Song.flac", 5000000, 0, "flac", 50, 100, true, false, none, ""⟩

/-- Tie-break counterexample, first offer: flac, `queue_length = 9`
(queue lengths 4-9 contribute nothing to the score). -/
def tieOfferA : FileInfo :=
  ⟨"peerB", "X - Y.flac", 1000, 0, "flac", 9, 0, true, false, none, ""⟩

/-- Tie-break counterexample, second offer: flac, `queue_length = 4`,
smaller queue and alphabetically smaller peer than `tieOfferA`. -/
def tieOfferB : FileInfo :=
  ⟨"peerA", "X - Z.flac", 1000, 0, "flac", 4, 0, true, false, none, ""⟩

/-- An offer whose filename contains the blacklisted word "live". -/
def liveOffer : FileInfo :=
  ⟨"u", "Artist - Song (Live).flac", 1000, 0, "flac", 0, 1000, true, false, none, ""⟩

/-- A fully populated offer (duration, bitrate, requested title). -/
def richOffer : FileInfo :=
  ⟨"u", "Music\\Artist - Lonely Day (Live).mp3", 1000, 320, "mp3", 2, 150, true,
    false, some 211, "Lonely Day"⟩

/-- A `record_download` call with a present ISRC. -/
def callX : RecordCall :=
  ⟨some "QZ-ISRC-1", "Artist", "Song", none, some "peer", some "f.flac",
    some 1000, some 320, none, "2026-01-01T00:00:00"⟩

/-! ## Shared lemmas about the stable descending sort and the dedup loop -/

/-- Sorted by `quality_score` descending. -/
def ScoreSorted (l : List Scored) : Prop :=
  l.Pairwise (fun a b => b.quality_score ≤ a.quality_score)

theorem mem_insertScored {x z : Scored} : ∀ {l : List Scored},
    z ∈ insertScored x l ↔ z = x ∨ z ∈ l := by
  intro l
  induction l with
  | nil => simp [insertScored]
  | cons y ys ih =>
    simp only [insertScored]
    split
    · rw [List.mem_cons, ih, List.mem_cons]
      tauto
    · rw [List.mem_cons, List.mem_cons]

theorem insertScored_sorted {x : Scored} : ∀ {l : List Scored},
    ScoreSorted l → ScoreSorted (insertScored x l) := by
  intro l
  induction l with
  | nil => intro _; simp [insertScored, ScoreSorted]
  | cons y ys ih =>
    intro h
    rw [ScoreSorted, List.pairwise_cons] at h
    obtain ⟨hy, hys⟩ := h
    simp only [insertScored]
    split
    · rename_i hle
      rw [ScoreSorted, List.pairwise_cons]
      refine ⟨fun z hz => ?_, ih hys⟩
      rcases mem_insertScored.mp hz with rfl | hz
      · exact hle
      · exact hy z hz
    · rename_i hgt
      push_neg at hgt
      rw [ScoreSorted, List.pairwise_cons]
      refine ⟨fun z hz => ?_, ?_⟩
      · rcases List.mem_cons.mp hz with rfl | hz
        · exact le_of_lt hgt
        · exact le_trans (hy z hz) (le_of_lt hgt)
      · rw [List.pairwise_cons]
        exact ⟨hy, hys⟩

theorem foldl_insertScored_sorted : ∀ (l acc : List Scored),
    ScoreSorted acc → ScoreSorted (l.foldl (fun a x => insertScored x a) acc)
  | [], _, h => h
  | x :: xs, acc, h =>
    foldl_insertScored_sorted xs (insertScored x acc) (insertScored_sorted h)

theorem sortByScoreDesc_sorted (l : List Scored) : ScoreSorted (sortByScoreDesc l) :=
  foldl_insertScored_sorted l [] (by simp [ScoreSorted])

theorem take_scoreSorted {l : List Scored} (n : Nat) (h : ScoreSorted l) :
    ScoreSorted (l.take n) :=
  List.Pairwise.sublist (List.take_sublist n l) h

theorem dedupAux_spec : ∀ (l : List Scored) (seen : List String),
    ((dedupAux seen l).map resultKey).Nodup ∧
      ∀ r ∈ dedupAux seen l, resultKey r ∉ seen
  | [], _ => by simp [dedupAux]
  | r :: rest, seen => by
    simp only [dedupAux]
    split
    · rename_i hc
      exact ⟨(dedupAux_spec rest seen).1, fun r' hr' => (dedupAux_spec rest seen).2 r' hr'⟩
    · rename_i hc
      obtain ⟨ihnd, ihmem⟩ := dedupAux_spec rest (resultKey r :: seen)
      refine ⟨?_, ?_⟩
      · rw [List.map_cons, List.nodup_cons]
        refine ⟨fun hmem => ?_, ihnd⟩
        obtain ⟨r', hr', hkey⟩ := List.mem_map.mp hmem
        exact ihmem r' hr' (by rw [hkey]; exact List.mem_cons_self _ _)
      · intro r' hr'
        rcases List.mem_cons.mp hr' with rfl | hr'
        · intro hmem
          exact hc (List.elem_iff.mpr hmem)
        · intro hmem
          exact ihmem r' hr' (List.mem_cons_of_mem _ hmem)

theorem dedupResults_keys_nodup (l : List Scored) :
    ((dedupResults l).map resultKey).Nodup :=
  (dedupAux_spec l []).1

/-! ## Claims -/

/-- Claim C1, counterexample:  The claim says an offer with `queueLength = 50`
is rejected by the hard filter and never appears in any ranked result set.
On the code the hard queue ceiling is `1000` (app.py line 355,
`if queue_length > 1000: # Was CONFIG['MAX_QUEUE_LENGTH']`), so `offerQ50`
— identical to its `queueLength = 0` twin except for the queue — passes
`passes_quality_filters` and appears in the ranked result set produced by
`rank_and_filter_results` (with the default `MAX_FILE_SIZE_MB = 30`,
`TOP_RESULTS_COUNT = 50`). -/
theorem C1_counterexample :
    passes_quality_filters 30 offerQ50 = true ∧
      (rank_and_filter_results 30 50 [offerQ50] none).map (fun r => r.file.queue_length)
        = [50] := by
  constructor
  · rfl
  · rfl

/-- Claim C1, amended:  Both offers pass the hard filter: for every offer, the
verdict of `passes_quality_filters` at `queueLength = 50` equals the verdict
at `queueLength = 0` (50 is far below the hard ceiling of 1000), and queue
length alone causes a hard rejection exactly when it exceeds 1000. -/
theorem C1_amended (f : FileInfo) (maxMB q : Nat) :
    (passes_quality_filters maxMB { f with queue_length := 50 }
      = passes_quality_filters maxMB { f with queue_length := 0 }) ∧
    (1000 < q → passes_quality_filters maxMB { f with queue_length := q } = false) := by
  constructor
  · simp only [passes_quality_filters]
    split_ifs <;> simp_all
  · intro hq
    simp only [passes_quality_filters]
    split_ifs <;> simp_all

/-- Witness for `C1_amended` at a concrete offer and `q = 1001`. -/
theorem C1_amended_witness :
    (passes_quality_filters 30 { offerQ50 with queue_length := 50 }
      = passes_quality_filters 30 { offerQ50 with queue_length := 0 }) ∧
    passes_quality_filters 30 { offerQ50 with queue_length := 1001 } = false :=
  ⟨(C1_amended offerQ50 30 1001).1, (C1_amended offerQ50 30 1001).2 (by decide)⟩

/-- Claim C8, confirmed:  `calculate_quality_score` is a pure function of the
offer, the requested title, and the optional metadata: two calls with equal
inputs return equal scores.  The embedding takes no clock or ambient state
argument because the Python function reads none — its only inputs are its
parameters and module-level constants. -/
theorem C8_score_deterministic (f₁ f₂ : FileInfo) (t₁ t₂ : String)
    (m₁ m₂ : Option MBMetadata) (hf : f₁ = f₂) (ht : t₁ = t₂) (hm : m₁ = m₂) :
    calculate_quality_score f₁ t₁ m₁ = calculate_quality_score f₂ t₂ m₂ := by
  subst hf; subst ht; subst hm; rfl

/-- Witness for `C8_score_deterministic` at a fully populated offer. -/
theorem C8_score_deterministic_witness :
    calculate_quality_score richOffer "Lonely Day" (some ⟨some "Hypnotize", some 210000, none⟩)
      = calculate_quality_score richOffer "Lonely Day"
          (some ⟨some "Hypnotize", some 210000, none⟩) :=
  C8_score_deterministic _ _ _ _ _ _ rfl rfl rfl

/-- Claim C2, counterexample:  `tieOfferA` (queue 9, peer "peerB") and
`tieOfferB` (queue 4, peer "peerA") receive the same score (50: flac bonus,
queues of 4-9 contribute nothing, speed 0).  Both the per-variant ranking
and the final merge/dedup/re-rank/truncate keep them in first-occurrence
order — queue 9 before queue 4, "peerB" before "peerA" — so ties are **not**
broken by queue length ascending or by peer id, contradicting the claimed
ordering. -/
theorem C2_counterexample :
    (aggregateResults 50 [⟨tieOfferA, 50⟩, ⟨tieOfferB, 50⟩]).map
        (fun r => (r.file.username, r.file.queue_length))
      = [("peerB", 9), ("peerA", 4)] ∧
    (rank_and_filter_results 30 50 [tieOfferA, tieOfferB] none).map
        (fun r => (r.quality_score, r.file.queue_length))
      = [(50, 9), (50, 4)] :=
  ⟨rfl, rfl⟩

/-- Claim C2, amended:  Every ranked result set — from the per-variant
`rank_and_filter_results` and from the final merge/dedup/re-rank/truncate of
`process_item` — has length at most the configured top-N and is sorted by
quality score descending; equal scores keep their first-occurrence order
(Python's sort is stable; no queue-length or peer-id tie-break exists), and
after deduplication no two entries share the `(peerId, filename)` key. -/
theorem C2_amended (topCount maxMB : Nat) (mb : Option MBMetadata)
    (results : List FileInfo) (collected : List Scored) :
    (rank_and_filter_results maxMB topCount results mb).length ≤ topCount ∧
    ScoreSorted (rank_and_filter_results maxMB topCount results mb) ∧
    (aggregateResults topCount collected).length ≤ topCount ∧
    ScoreSorted (aggregateResults topCount collected) ∧
    ((dedupResults collected).map resultKey).Nodup := by
  refine ⟨?_, ?_, ?_, ?_, dedupResults_keys_nodup collected⟩
  · exact List.length_take_le _ _
  · exact take_scoreSorted _ (sortByScoreDesc_sorted _)
  · exact List.length_take_le _ _
  · exact take_scoreSorted _ (sortByScoreDesc_sorted _)

/-- Claim C3, counterexample:  With every attempt rate-limited,
`_request_with_retry` performs **4** `session.request` calls
(`for i in range(max_retries + 1)` with `max_retries = 3`), not the claimed
maximum of 3; the backoff waits are 1 s, 2 s, 4 s. -/
theorem C3_counterexample :
    request_with_retry (fun _ => Outcome.rate) = ⟨4, [1, 2, 4], ReqResult.raised⟩ :=
  rfl

/-- Claim C3, amended:  For every sequence of attempt outcomes:
`_request_with_retry` makes at most 4 attempts in total; its waits are an
initial run of the exponential-backoff sequence 1 s, 2 s, 4 s (waits happen
only between rate-limited attempts); only 429 rate-limit responses are
retried — any other `RequestException` (including transient network errors)
is re-raised on first occurrence without a retry or a wait, and a success
returns at once.  (The raised failure is caught per query variant by
`process_item`'s `try/except`, which logs it and continues with the
remaining variants, so the owning item is not aborted.) -/
theorem C3_amended (att : Nat → Outcome) :
    (request_with_retry att).attempts ≤ 4 ∧
    ((request_with_retry att).waits = [] ∨ (request_with_retry att).waits = [1] ∨
      (request_with_retry att).waits = [1, 2] ∨ (request_with_retry att).waits = [1, 2, 4]) ∧
    (att 0 = Outcome.err → request_with_retry att = ⟨1, [], ReqResult.raised⟩) ∧
    (att 0 = Outcome.ok → request_with_retry att = ⟨1, [], ReqResult.success⟩) := by
  rcases h0 : att 0 <;> rcases h1 : att 1 <;> rcases h2 : att 2 <;> rcases h3 : att 3 <;>
    simp [request_with_retry, retryIter, h0, h1, h2, h3]

/-- Witness for `C3_amended`: a permanent failure on the first attempt is
not retried. -/
theorem C3_amended_witness :
    request_with_retry (fun _ => Outcome.err) = ⟨1, [], ReqResult.raised⟩ :=
  (C3_amended (fun _ => Outcome.err)).2.2.1 rfl

/-- Claim C4, code bug:  The claim (and §4.6 of the spec) requires
`delete(k)` to return `True` and remove the record that `upsert(k)` stored.
In the code `add_track_results` stores every record inside the
album-grouped `albums` dict, while `delete_track` looks **only** in the
legacy flat `tracks` dict — so for a freshly upserted key, `delete_track`
returns `False`, the store is unchanged, and `get_track_by_key` still finds
the record.  Failing input evaluated here: empty store, upsert of key
`"A - T"` (artist "A", title "T", no album), then `delete_track "A - T"`. -/
theorem C4_failing_input :
    (get_track_by_key
        (add_track_results emptyStore "A - T" "A" "T" "" [] "" none "2026-01-01")
        "A - T").isSome = true ∧
    (delete_track
        (add_track_results emptyStore "A - T" "A" "T" "" [] "" none "2026-01-01")
        "A - T").2 = false ∧
    (delete_track
        (add_track_results emptyStore "A - T" "A" "T" "" [] "" none "2026-01-01")
        "A - T").1
      = add_track_results emptyStore "A - T" "A" "T" "" [] "" none "2026-01-01" ∧
    (get_track_by_key
        (delete_track
          (add_track_results emptyStore "A - T" "A" "T" "" [] "" none "2026-01-01")
          "A - T").1
        "A - T").isSome = true := by
  refine ⟨rfl, rfl, ?_, rfl⟩
  rfl

/-- If `is_duplicate` reports `False` for a present (non-empty) id, no
ledger record carries that id. -/
theorem is_duplicate_false_not_mem {ledger : Ledger} {s : String} (hs : s ≠ "")
    (h : is_duplicate ledger (some s) = false) :
    ∀ d ∈ ledger, d.isrc ≠ some s := by
  intro d hd
  simp only [is_duplicate] at h
  rw [if_neg (by simp [hs])] at h
  have := List.any_eq_false.mp h d hd
  simpa using this

/-- A guarded `record_download` preserves `NoDupPresentIsrc`. -/
theorem noDupPresent_applyCall {ledger : Ledger} {c : RecordCall}
    (hinv : NoDupPresentIsrc ledger) (hg : is_duplicate ledger c.isrc = false) :
    NoDupPresentIsrc (applyCall ledger c) := by
  rw [NoDupPresentIsrc, applyCall, record_download, List.pairwise_append]
  refine ⟨hinv, List.pairwise_singleton _ _, ?_⟩
  intro a ha b hb s hs hais hbis
  rcases List.mem_singleton.mp hb with rfl
  have hcs : c.isrc = some s := hbis
  rw [hcs] at hg
  exact is_duplicate_false_not_mem hs hg a ha hais

/-- Guarded call sequences preserve `NoDupPresentIsrc` from any state. -/
theorem applyCalls_guarded : ∀ (calls : List RecordCall) (ledger : Ledger),
    NoDupPresentIsrc ledger → GuardedFrom ledger calls →
    NoDupPresentIsrc (applyCalls ledger calls)
  | [], _, hinv, _ => hinv
  | _ :: rest, _, hinv, ⟨hg, hrest⟩ =>
    applyCalls_guarded rest _ (noDupPresent_applyCall hinv hg) hrest

/-- Claim C5, counterexample:  `record_download` appends unconditionally
(isrc_tracker.py line 162): starting from the empty ledger, two
`record_download` calls with the same non-null ISRC `"QZ-ISRC-1"` leave the
ledger with two records sharing that non-null recording id — the claimed
invariant does **not** survive every `recordDownload` call. -/
theorem C5_counterexample :
    ¬ NoDupNonNullIsrc (applyCalls [] [callX, callX]) := by
  intro h
  rcases List.pairwise_cons.mp h with ⟨hrel, _⟩
  exact hrel _ (List.mem_cons_self _ _) ⟨rfl, rfl⟩

/-- Claim C5, amended:  The ledger never contains two records with the same
non-absent (non-null, non-empty) ISRC **provided** every `record_download`
is guarded by a preceding `is_duplicate` check returning `False` on the
current ledger — the protocol the download routes follow.  `record_download`
itself enforces nothing: an unguarded duplicate call violates the invariant
(see the counterexample), and ids equal to the empty string are invisible
to `is_duplicate` and therefore cannot be protected at all. -/
theorem C5_amended (calls : List RecordCall) (h : GuardedFrom [] calls) :
    NoDupPresentIsrc (applyCalls [] calls) :=
  applyCalls_guarded calls [] List.Pairwise.nil h

/-- Witness for `C5_amended`: a single guarded call from the empty ledger. -/
theorem C5_amended_witness : NoDupPresentIsrc (applyCalls [] [callX]) :=
  C5_amended [callX] ⟨rfl, trivial⟩

/-- Intra-batch duplicate pair: same queue key `"A-T"`, different albums. -/
def dupItemA : SearchItem := ⟨"A", "T", ""⟩

/-- Second item of the intra-batch duplicate pair. -/
def dupItemB : SearchItem := ⟨"A", "T", "B"⟩

/-- Claim C6, counterexample:  `add_items` computes `current_keys` from the
pre-existing queue only and never extends it while scanning the batch
(app.py lines 136-141): a single batch holding two items with the same
identity key — here `dupItemA` and `dupItemB`, both with key `"A-T"` —
appends **both**, returns 2, and leaves the queue with two entries sharing
an identity key, contradicting the claimed no-duplicate property. -/
theorem C6_counterexample :
    (add_items [] [dupItemA, dupItemB]).2 = 2 ∧
    ((add_items [] [dupItemA, dupItemB]).1.map itemKey) = ["A-T", "A-T"] ∧
    ¬ ((add_items [] [dupItemA, dupItemB]).1.map itemKey).Nodup := by
  refine ⟨rfl, rfl, ?_⟩
  decide

/-- Claim C6, amended:  `add_items` appends exactly the batch items whose
identity key is absent from the **pre-existing** queue and returns their
count; a batch consisting solely of already-present keys leaves the queue
unchanged and returns 0; and the no-two-entries-share-a-key property holds
whenever the batch itself contains no duplicate keys (deduplication is only
performed against the prior queue, not within the batch). -/
theorem C6_amended (queue items : List SearchItem) :
    (add_items queue items).1
        = queue ++ items.filter (fun i => !((queue.map itemKey).contains (itemKey i))) ∧
    (add_items queue items).2
        = (items.filter (fun i => !((queue.map itemKey).contains (itemKey i)))).length ∧
    ((∀ i ∈ items, (queue.map itemKey).contains (itemKey i) = true) →
      (add_items queue items).1 = queue ∧ (add_items queue items).2 = 0) ∧
    ((queue.map itemKey).Nodup → (items.map itemKey).Nodup →
      ((add_items queue items).1.map itemKey).Nodup) := by
  refine ⟨rfl, rfl, ?_, ?_⟩
  · intro hall
    have hnil : items.filter (fun i => !((queue.map itemKey).contains (itemKey i))) = [] := by
      rw [List.filter_eq_nil_iff]
      intro a ha
      rw [hall a ha]
      decide
    constructor
    · show queue ++ _ = queue
      rw [hnil, List.append_nil]
    · show (items.filter _).length = 0
      rw [hnil]
      rfl
  · intro hq hi
    show ((queue ++ _).map itemKey).Nodup
    rw [List.map_append, List.nodup_append]
    refine ⟨hq, hi.sublist ((List.filter_sublist items).map itemKey), ?_⟩
    intro k hk1 hk2
    obtain ⟨i, hi_mem, rfl⟩ := List.mem_map.mp hk2
    obtain ⟨hi_items, hp⟩ := List.mem_filter.mp hi_mem
    rw [Bool.not_eq_eq_eq_not, Bool.not_true] at hp
    have hc : (queue.map itemKey).contains (itemKey i) = true := List.elem_iff.mpr hk1
    rw [hp] at hc
    exact Bool.false_ne_true hc

/-- Witness for `C6_amended`: a batch whose single item's key is already in
the queue adds nothing. -/
theorem C6_amended_witness :
    (add_items [dupItemA] [dupItemB]).1 = [dupItemA] ∧
      (add_items [dupItemA] [dupItemB]).2 = 0 :=
  (C6_amended [dupItemA] [dupItemB]).2.2.1 (by decide)

/-- The first entry of a progress trace is the starting value. -/
theorem progressTrace_head (p : Nat) (l : List Bool) :
    (progressTrace p l).head? = some p := by
  cases l <;> rfl

/-- The progress counter never decreases along the trace. -/
theorem progressTrace_chain : ∀ (l : List Bool) (p : Nat),
    List.Chain' (· ≤ ·) (progressTrace p l)
  | [], _ => by simp [progressTrace]
  | f :: rest, p => by
    rw [progressTrace, List.chain'_cons']
    refine ⟨?_, progressTrace_chain rest _⟩
    intro y hy
    rw [progressTrace_head, Option.mem_def, Option.some_inj] at hy
    subst hy
    split <;> omega

/-- Every value along the trace is bounded by start plus item count. -/
theorem progressTrace_le : ∀ (l : List Bool) (p x : Nat),
    x ∈ progressTrace p l → x ≤ p + l.length
  | [], p, x, hx => by
    simp only [progressTrace, List.mem_singleton] at hx
    omega
  | f :: rest, p, x, hx => by
    rw [progressTrace] at hx
    rcases List.mem_cons.mp hx with rfl | hx
    · simp
    · have h := progressTrace_le rest (if f then p + 1 else p) x hx
      simp only [List.length_cons]
      split at h <;> omega

/-- Claim C7, counterexample:  A batch of two drained items where the second
observes the cancellation flag (`cancel_search` sets `active = False`;
`process_item` then returns without incrementing `progress`) still ends
with `completed = True` (app.py line 1160) while `progress = 1 < 2 = total`
— so termination with `completed = True` does **not** imply that the
progress counter equals the total. -/
theorem C7_counterexample :
    (runBatch 0 [true, false]).completed = true ∧
    (runBatch 0 [true, false]).progress = 1 ∧
    (runBatch 0 [true, false]).total = 2 :=
  ⟨rfl, rfl, rfl⟩

/-- Claim C7, amended:  During a batch the progress counter is monotonically
non-decreasing and never exceeds the total fixed at drain time, and the
final `progress` never exceeds `total`; the task always terminates with
`completed = True`, and `progress = total` holds at termination **when no
item was skipped by cancellation** (all flags true).  Under cancellation the
task still sets `completed = True` with `progress` possibly short of
`total`. -/
theorem C7_amended (p0 : Nat) (flags : List Bool) :
    List.Chain' (· ≤ ·) (progressTrace p0 flags) ∧
    (∀ x ∈ progressTrace p0 flags, x ≤ (runBatch p0 flags).total) ∧
    (runBatch p0 flags).progress ≤ (runBatch p0 flags).total ∧
    (runBatch p0 flags).completed = true ∧
    ((∀ b ∈ flags, b = true) → (runBatch p0 flags).progress = (runBatch p0 flags).total) := by
  refine ⟨progressTrace_chain flags p0, ?_, ?_, rfl, ?_⟩
  · intro x hx
    exact progressTrace_le flags p0 x hx
  · show p0 + flags.count true ≤ p0 + flags.length
    have h := List.count_le_length true flags
    omega
  · intro hall
    show p0 + flags.count true = p0 + flags.length
    have h : flags.count true = flags.length :=
      List.count_eq_length.mpr (fun b hb => (hall b hb).symm)
    omega

/-- Witness for `C7_amended`: an uncancelled one-item batch finishes with
`progress = total`. -/
theorem C7_amended_witness :
    (runBatch 0 [true]).progress = (runBatch 0 [true]).total :=
  (C7_amended 0 [true]).2.2.2.2 (by decide)

/-- Claim C9, counterexample:  The empty string is a non-null recording id,
yet `is_duplicate` treats it as absent (`if not isrc: return False`,
isrc_tracker.py line 89): after `record_download` with id `""`,
`is_duplicate("")` still returns `False`, contradicting the claim's
"for every non-null recording id, recordDownload then isDuplicate is
true". -/
theorem C9_counterexample :
    is_duplicate
      (record_download [] (some "") "A" "T" none none none none none none "2026-01-01")
      (some "") = false :=
  rfl

/-- Claim C9, amended:  `is_duplicate` of an absent id — `None` **or** the
empty string — is always `False` on every ledger; and for every non-absent
(non-null, non-empty) id, `record_download` with that id followed by
`is_duplicate` of the same id returns `True`. -/
theorem C9_amended (ledger : Ledger) (s artist title : String)
    (album username filename : Option String) (size bitrate : Option Nat)
    (mbid : Option String) (ts : String) :
    is_duplicate ledger none = false ∧
    is_duplicate ledger (some "") = false ∧
    (s ≠ "" →
      is_duplicate
        (record_download ledger (some s) artist title album username filename
          size bitrate mbid ts)
        (some s) = true) := by
  refine ⟨rfl, ?_, ?_⟩
  · simp [is_duplicate]
  · intro hs
    simp [is_duplicate, record_download, hs, List.any_append]

/-- Witness for `C9_amended` at a concrete non-empty ISRC. -/
theorem C9_amended_witness :
    is_duplicate
      (record_download [] (some "USRC17607839") "Artist" "Song" none none none
        none none none "2026-01-01")
      (some "USRC17607839") = true :=
  (C9_amended [] "USRC17607839" "Artist" "Song" none none none none none none
    "2026-01-01").2.2 (by decide)

/-- The literal-containment album bonus is non-negative. -/
theorem albumContainTerm_nonneg (fn : String) (mb : Option MBMetadata) :
    0 ≤ albumContainTerm fn mb := by
  cases mb with
  | none => simp [albumContainTerm]
  | some m =>
    simp only [albumContainTerm]
    split_ifs <;> omega

/-- The duration block contributes at least `-200`. -/
theorem durationTerm_ge (d : Option Rat) (mb : Option MBMetadata) :
    -200 ≤ durationTerm d mb := by
  cases mb with
  | none => simp [durationTerm]
  | some m =>
    simp only [durationTerm]
    split_ifs <;> omega

/-- The fuzzy album bonus is non-negative. -/
theorem albumFuzzyTerm_nonneg (fn : String) (mb : Option MBMetadata) :
    0 ≤ albumFuzzyTerm fn mb := by
  cases mb with
  | none => simp [albumFuzzyTerm]
  | some m =>
    simp only [albumFuzzyTerm]
    split_ifs <;> omega

/-- The format/bitrate block contributes at least `-100`. -/
theorem bitrateTerm_ge (e : String) (b : Nat) : -100 ≤ bitrateTerm e b := by
  simp only [bitrateTerm]
  split_ifs <;> omega

/-- The queue block contributes at least `-100`. -/
theorem queueTerm_ge (q : Nat) : -100 ≤ queueTerm q := by
  simp only [queueTerm]
  split_ifs <;> omega

/-- The speed block is non-negative. -/
theorem speedTerm_nonneg (s : Rat) : 0 ≤ speedTerm s := by
  simp only [speedTerm]
  split_ifs <;> omega

/-- Claim C10, confirmed:  With an empty requested title the whole name block
(`if requested_title:`) is skipped — no blacklist penalty, no containment
bonus, no ratio tier — and the score is exactly the sum of the album,
duration, format/bitrate, queue and speed terms.  Consequently the score is
at least `-400` (each remaining block's worst case summed), so the `-500`
blacklist penalty can never occur; concretely, an offer whose filename
contains the blacklisted word "live" scores `50 + 50 + 20 = 120` with an
empty title. -/
theorem C10_empty_title (f : FileInfo) (mb : Option MBMetadata) :
    calculate_quality_score f "" mb
      = albumContainTerm f.filename mb + durationTerm f.duration_seconds mb
        + albumFuzzyTerm f.filename mb + bitrateTerm f.extension f.bitrate
        + queueTerm f.queue_length + speedTerm f.speed_kbs ∧
    -400 ≤ calculate_quality_score f "" mb ∧
    calculate_quality_score liveOffer "" none = 120 := by
  have heq : calculate_quality_score f "" mb
      = albumContainTerm f.filename mb + durationTerm f.duration_seconds mb
        + albumFuzzyTerm f.filename mb + bitrateTerm f.extension f.bitrate
        + queueTerm f.queue_length + speedTerm f.speed_kbs := by
    simp [calculate_quality_score]
  refine ⟨heq, ?_, rfl⟩
  rw [heq]
  have h1 := albumContainTerm_nonneg f.filename mb
  have h2 := durationTerm_ge f.duration_seconds mb
  have h3 := albumFuzzyTerm_nonneg f.filename mb
  have h4 := bitrateTerm_ge f.extension f.bitrate
  have h5 := queueTerm_ge f.queue_length
  have h6 := speedTerm_nonneg f.speed_kbs
  omega

end Slskd





